import Mathlib

/-!
Verification of the spack deployment backend (snakemake/deployment/spack.py).

The development shallowly embeds the data model and operations of the
source file: the environment handle (`Env`), its identity hash
(`Env.hash`, an MD5 hex digest over the realpath-canonicalized target
root directory concatenated with the raw content bytes), on-disk path
resolution (`Env.path`), provisioning (`Env.create`), archival
(`Env.createArchive`), handle equality (`Env.eq`), and the external
tool availability check (`spackCheck`).  The filesystem is modelled as
an explicit state (`FS`), external process invocations as an oracle
(`ToolRunner`), and provisioning side effects additionally as an event
trace for temporal properties.
-/

set_option maxRecDepth 4000

namespace SpackEnv

/-- Raw bytes, each entry intended to lie below 256. -/
abbrev Bytes := List Nat

/-- UTF-8 encoding of a single character (codepoint to bytes). -/
def charUtf8 (c : Char) : Bytes :=
  let n := c.toNat
  if n < 128 then [n]
  else if n < 2048 then [192 + n / 64, 128 + n % 64]
  else if n < 65536 then [224 + n / 4096, 128 + n / 64 % 64, 128 + n % 64]
  else [240 + n / 262144, 128 + n / 4096 % 64, 128 + n / 64 % 64, 128 + n % 64]

/-- UTF-8 encoding of a string, as `str.encode()` produces in the source. -/
def strUtf8 (s : String) : Bytes := s.data.flatMap charUtf8

/-! ## MD5 (hashlib.md5), over byte lists with 32-bit arithmetic as Nat mod 2^32 -/

/-- Left-rotation of a 32-bit word (`x < 2^32`). -/
def rotl32 (x s : Nat) : Nat := ((x <<< s) ||| (x >>> (32 - s))) % 4294967296

/-- The MD5 per-round nonlinear functions F, G, H, I selected by round index. -/
def md5F (i b c d : Nat) : Nat :=
  if i < 16 then (b &&& c) ||| ((b ^^^ 4294967295) &&& d)
  else if i < 32 then (d &&& b) ||| ((d ^^^ 4294967295) &&& c)
  else if i < 48 then b ^^^ c ^^^ d
  else c ^^^ (b ||| (d ^^^ 4294967295))

/-- The MD5 message-word index schedule. -/
def md5G (i : Nat) : Nat :=
  if i < 16 then i
  else if i < 32 then (5 * i + 1) % 16
  else if i < 48 then (3 * i + 5) % 16
  else (7 * i) % 16

/-- The MD5 per-round left-rotation amounts. -/
def md5S : List Nat :=
  [7, 12, 17, 22, 7, 12, 17, 22, 7, 12, 17, 22, 7, 12, 17, 22,
   5, 9, 14, 20, 5, 9, 14, 20, 5, 9, 14, 20, 5, 9, 14, 20,
   4, 11, 16, 23, 4, 11, 16, 23, 4, 11, 16, 23, 4, 11, 16, 23,
   6, 10, 15, 21, 6, 10, 15, 21, 6, 10, 15, 21, 6, 10, 15, 21]

/-- The MD5 sine-derived additive constants. -/
def md5K : List Nat :=
  [0xd76aa478, 0xe8c7b756, 0x242070db, 0xc1bdceee,
   0xf57c0faf, 0x4787c62a, 0xa8304613, 0xfd469501,
   0x698098d8, 0x8b44f7af, 0xffff5bb1, 0x895cd7be,
   0x6b901122, 0xfd987193, 0xa679438e, 0x49b40821,
   0xf61e2562, 0xc040b340, 0x265e5a51, 0xe9b6c7aa,
   0xd62f105d, 0x02441453, 0xd8a1e681, 0xe7d3fbc8,
   0x21e1cde6, 0xc33707d6, 0xf4d50d87, 0x455a14ed,
   0xa9e3e905, 0xfcefa3f8, 0x676f02d9, 0x8d2a4c8a,
   0xfffa3942, 0x8771f681, 0x6d9d6122, 0xfde5380c,
   0xa4beea44, 0x4bdecfa9, 0xf6bb4b60, 0xbebfbc70,
   0x289b7ec6, 0xeaa127fa, 0xd4ef3085, 0x04881d05,
   0xd9d4d039, 0xe6db99e5, 0x1fa27cf8, 0xc4ac5665,
   0xf4292244, 0x432aff97, 0xab9423a7, 0xfc93a039,
   0x655b59c3, 0x8f0ccc92, 0xffeff47d, 0x85845dd1,
   0x6fa87e4f, 0xfe2ce6e0, 0xa3014314, 0x4e0811a1,
   0xf7537e82, 0xbd3af235, 0x2ad7d2bb, 0xeb86d391]

/-- Little-endian decomposition of `n` into `k` bytes. -/
def toLEBytes (n k : Nat) : Bytes := (List.range k).map (fun i => (n >>> (8 * i)) % 256)

/-- Recompose four bytes into a little-endian 32-bit word. -/
def le32 (b0 b1 b2 b3 : Nat) : Nat := b0 + 256 * b1 + 65536 * b2 + 16777216 * b3

/-- The sixteen little-endian message words of one 64-byte block. -/
def blockWords (block : Bytes) : List Nat :=
  (List.range 16).map (fun j =>
    le32 (block.getD (4 * j) 0) (block.getD (4 * j + 1) 0)
         (block.getD (4 * j + 2) 0) (block.getD (4 * j + 3) 0))

/-- One MD5 round on the state `(a, b, c, d)` with message words `m`. -/
def md5Round (m : List Nat) (st : Nat × Nat × Nat × Nat) (i : Nat) : Nat × Nat × Nat × Nat :=
  let a := st.1
  let b := st.2.1
  let c := st.2.2.1
  let d := st.2.2.2
  let f := (md5F i b c d + a + md5K.getD i 0 + m.getD (md5G i) 0) % 4294967296
  (d, (b + rotl32 f (md5S.getD i 0)) % 4294967296, b, c)

/-- Process one 64-byte block: 64 rounds, then add the previous state. -/
def md5Block (st : Nat × Nat × Nat × Nat) (block : Bytes) : Nat × Nat × Nat × Nat :=
  let m := blockWords block
  let r := (List.range 64).foldl (md5Round m) st
  ((st.1 + r.1) % 4294967296, (st.2.1 + r.2.1) % 4294967296,
   (st.2.2.1 + r.2.2.1) % 4294967296, (st.2.2.2 + r.2.2.2) % 4294967296)

/-- MD5 padding: 0x80, zeros to 56 mod 64, then the 64-bit little-endian bit length. -/
def md5Pad (msg : Bytes) : Bytes :=
  msg ++ [128] ++ List.replicate ((119 - msg.length % 64) % 64) 0
      ++ toLEBytes (8 * msg.length) 8

/-- The 16-byte MD5 digest of a byte list. -/
def md5Digest (msg : Bytes) : Bytes :=
  let padded := md5Pad msg
  let n := padded.length / 64
  let r := (List.range n).foldl
      (fun st i => md5Block st ((padded.drop (64 * i)).take 64))
      (1732584193, 4023233417, 2562383102, 271733878)
  toLEBytes r.1 4 ++ toLEBytes r.2.1 4 ++ toLEBytes r.2.2.1 4 ++ toLEBytes r.2.2.2 4

/-- The lowercase hexadecimal digit character for a nibble: digits 0-9
then letters a-f. -/
def hexDigitChar (n : Nat) : Char :=
  if n < 10 then Char.ofNat (48 + n) else Char.ofNat (87 + n)

/-- The sixteen lowercase hexadecimal digit characters. -/
def hexDigits : List Char := (List.range 16).map hexDigitChar

/-- Two lowercase hex characters for one byte. -/
def byteHex (b : Nat) : List Char := [hexDigitChar (b / 16 % 16), hexDigitChar (b % 16)]

/-- The lowercase hex digest string, as `hashlib.md5(...).hexdigest()` returns. -/
def md5hex (msg : Bytes) : String := String.mk ((md5Digest msg).flatMap byteHex)

/-! ## Data model: source files, filesystem state, environment handles -/

/-- The specification source kinds distinguished by `snakemake.sourcecache`:
a plain local file (`LocalSourceFile`), a local git blob (`LocalGitFile`),
and a remote source.  `Env.create` treats a source as needing a temporary
materialization exactly when it is not a plain `LocalSourceFile` or is a
`LocalGitFile`. -/
inductive SourceFile where
  | localSource (path : String)
  | localGit (path ref : String)
  | remote (uri : String)
deriving DecidableEq

/-- `isinstance(env_file, LocalSourceFile)` of the source. -/
def SourceFile.isLocalSourceFile : SourceFile → Bool
  | .localSource _ => true
  | _ => false

/-- `isinstance(env_file, LocalGitFile)` of the source. -/
def SourceFile.isLocalGitFile : SourceFile → Bool
  | .localGit _ _ => true
  | _ => false

/-- `env_file.get_path_or_uri()` of the source. -/
def SourceFile.getPathOrUri : SourceFile → String
  | .localSource p => p
  | .localGit p _ => p
  | .remote u => u

/-- Filesystem state: the set of existing directories and the existing
files with their contents.  `os.path.exists` is membership. -/
structure FS where
  dirs : List String
  files : List (String × Bytes)
deriving DecidableEq

/-- `os.path.exists(p)`: the path is a directory or a file. -/
def FS.existsPath (fs : FS) (p : String) : Bool :=
  fs.dirs.contains p || fs.files.any (fun f => f.1 == p)

/-- Writing a file (`tmp.write`, `Path(...).touch()`, `shutil.copyfile`). -/
def FS.writeFile (fs : FS) (p : String) (b : Bytes) : FS :=
  { fs with files := (p, b) :: fs.files }

/-- `os.makedirs(p, exist_ok=True)`. -/
def FS.mkdirs (fs : FS) (p : String) : FS :=
  if fs.dirs.contains p then fs else { fs with dirs := p :: fs.dirs }

/-- `os.remove(p)`: the file entries at `p` disappear. -/
def FS.removeFile (fs : FS) (p : String) : FS :=
  { fs with files := fs.files.filter (fun f => f.1 != p) }

/-- `shutil.rmtree(p, ignore_errors=True)`: `p` itself and everything
below `p` disappears (deletion cannot fail in this model, matching the
best-effort, error-swallowing call in the source). -/
def FS.rmtree (fs : FS) (p : String) : FS :=
  { dirs := fs.dirs.filter (fun d => !(d == p || (p ++ "/").isPrefixOf d)),
    files := fs.files.filter (fun f => !(f.1 == p || (p ++ "/").isPrefixOf f.1)) }

/-- Result of one external shell invocation (`shell.check_output`):
either success with captured output, or a `CalledProcessError` carrying
the captured combined stdout/stderr; both carry the filesystem as the
invoked process left it. -/
inductive RunResult where
  | ok (output : String) (fs : FS)
  | err (output : String) (fs : FS)

/-- The filesystem component of a run result. -/
def RunResult.fsOf : RunResult → FS
  | .ok _ fs => fs
  | .err _ fs => fs

/-- Oracle for external process invocations. -/
structure ToolRunner where
  run : String → FS → RunResult

/-- A runner whose invocations never delete existing filesystem entries
(they may add to them).  The spack subcommands install into the
environment; they do not remove the directory or sentinels our code wrote. -/
def ToolRunner.Preserving (r : ToolRunner) : Prop :=
  ∀ cmd fs, (∀ d, d ∈ fs.dirs → d ∈ ((r.run cmd fs).fsOf).dirs) ∧
            (∀ f, f ∈ fs.files → f ∈ ((r.run cmd fs).fsOf).files)

/-- Ambient world: `os.path.realpath`, the fresh name handed out by
`tempfile.NamedTemporaryFile`, and the external process oracle. -/
structure World where
  realpath : String → String
  tmpName : String
  runner : ToolRunner

/-- The environment handle of the source (`Env.__init__`): the declared
specification source, its raw content bytes (`EnvBase.content` — modelled
from the spec: the content is the specification's raw bytes, read once
from the backing source and cached for the object's lifetime), and the
target root directory `_env_dir`. -/
structure Env where
  file : SourceFile
  content : Bytes
  envDir : String

/-- `Env.hash`: the MD5 hex digest over the realpath-canonicalized
absolute target env dir concatenated with the raw content bytes. -/
def Env.hash (e : Env) (w : World) : String :=
  md5hex (strUtf8 (w.realpath e.envDir) ++ e.content)

/-- `os.path.join` for the paths the source builds. -/
def joinPath (a b : String) : String := a ++ "/" ++ b

/-- The start sentinel file inside an environment directory. -/
def startSentinel (p : String) : String := joinPath p ("env_setup_start")

/-- The done sentinel file inside an environment directory. -/
def doneSentinel (p : String) : String := joinPath p ("env_setup_done")

/-- The copy of the specification placed inside the environment directory. -/
def specArtifact (p : String) : String := joinPath p ("spack.yaml")

/-- `Env.path`: live path resolution.  The candidates are the 8-character
short hash and the full hash; the full-hash path is returned when it
exists or when the short-hash path does not exist, otherwise the
pre-existing short-hash path is returned. -/
def Env.path (e : Env) (w : World) (fs : FS) : String :=
  let short := joinPath e.envDir ((e.hash w).take 8)
  let full := joinPath e.envDir (e.hash w)
  if fs.existsPath full || !(fs.existsPath short) then full else short

/-! ## Provisioning orchestrator (`Env.create` and collaborators) -/

/-- The errors the source raises: `WorkflowError` (archival is
unsupported), `CreateSpackEnvironmentException` (failed provisioning or
missing tool; the spec calls these `ProvisioningFailed` / `ToolNotFound`),
and the broken-environment failure (the spec's `BrokenEnvironment`). -/
inductive SnakeError where
  | workflowError (msg : String)
  | createSpackEnvironmentException (msg : String)
  | brokenEnvironment (envPath : String)
deriving DecidableEq

/-- Observable side-effect events of one `Env.create` run. -/
inductive Event where
  | makedirs (p : String)
  | touchStart (envPath : String)
  | touchDone (envPath : String)
  | copyEnvFile (src dst : String)
  | writeTmp (p : String)
  | invoke (cmd : String)
  | removeTmp (p : String)
  | rmtree (p : String)
deriving DecidableEq

/-- Result of one `Env.create` run: the returned path or raised error,
the final filesystem, and the trace of side-effect events in order. -/
structure Outcome where
  result : Except SnakeError String
  fs : FS
  trace : List Event

/-- Whether `Env.create` materializes the content into a temporary file:
`not isinstance(env_file, LocalSourceFile) or isinstance(env_file, LocalGitFile)`. -/
def Env.usesTmp (e : Env) : Bool :=
  !e.file.isLocalSourceFile || e.file.isLocalGitFile

/-- The filesystem right after the optional temporary-file materialization
at the top of `Env.create`. -/
def Env.stagedFS (e : Env) (w : World) (fs : FS) : FS :=
  if e.usesTmp then fs.writeFile w.tmpName e.content else fs

/-- The environment path `Env.create` works with: `self.path` evaluated
after the temporary-file step. -/
def Env.createPath (e : Env) (w : World) (fs : FS) : String :=
  e.path w (e.stagedFS w fs)

/-- Modelled from the spec: `EnvBase.check_broken_environment` (in the
base module, not part of the provided source) classifies a directory as
broken iff a start sentinel exists without a matching done sentinel, and
the orchestrator fails fast on a broken directory. -/
def brokenEnv (fs : FS) (envPath : String) : Bool :=
  fs.existsPath (startSentinel envPath) && !(fs.existsPath (doneSentinel envPath))

/-- The `spack env create` command line built by the source. -/
def createCmd (envPath targetEnvFile : String) : String :=
  "spack env create --dir \x27" ++ envPath ++ "\x27 " ++ targetEnvFile

/-- The activate-and-install command line built by the source. -/
def activateCmd (envPath : String) : String :=
  "eval `spack env activate --sh " ++ envPath ++ "`; spack install"

/-- The `CreateSpackEnvironmentException` message on a failed invocation:
the captured combined output is appended verbatim. -/
def provisioningFailedMsg (envFile out : String) : String :=
  "Could not create spack environment from " ++ envFile ++ ":\n" ++ out

/-- The string `Env.create` uses as the environment file: the temporary
file name for materialized sources, else the declared path. -/
def Env.envFileStr (e : Env) (w : World) : String :=
  if e.usesTmp then w.tmpName else e.file.getPathOrUri

/-- The first invoked command (`spack env create ...`). -/
def Env.cmd1 (e : Env) (w : World) (fs : FS) : String :=
  createCmd (e.createPath w fs) (specArtifact (e.createPath w fs))

/-- The second invoked command (activate and `spack install`). -/
def Env.cmd2 (e : Env) (w : World) (fs : FS) : String :=
  activateCmd (e.createPath w fs)

/-- The filesystem after the directory creation, start sentinel, and
spec-copy steps of the provisioning sequence. -/
def Env.provFS (e : Env) (w : World) (fs : FS) : FS :=
  (((e.stagedFS w fs).mkdirs (e.createPath w fs)).writeFile
      (startSentinel (e.createPath w fs)) []).writeFile
    (specArtifact (e.createPath w fs)) e.content

/-- The tail of `Env.create` reached both from the already-exists early
return and from a successful provisioning sequence: remove the temporary
file if one was created, then return the path. -/
def finishCreate (envPath : String) (useTmp : Bool) (tmpName : String)
    (fs : FS) (tr : List Event) : Outcome :=
  if useTmp then
    ⟨Except.ok envPath, fs.removeFile tmpName, tr ++ [Event.removeTmp tmpName]⟩
  else ⟨Except.ok envPath, fs, tr⟩

/-- `Env.create`: materialize the spec into a temporary file when the
source is not a plain local file, resolve the path, fail fast on a
broken environment, return the existing path if present, report only on
dry runs, and otherwise run the provisioning sequence — create the
directory, touch the start sentinel, copy the spec into the directory,
invoke `spack env create` then activate-and-install, touch the done
sentinel on success, or roll the directory back and raise on failure. -/
def Env.create (e : Env) (w : World) (fs : FS) (dryrun : Bool) : Outcome :=
  let fs1 := e.stagedFS w fs
  let tr1 : List Event := if e.usesTmp then [Event.writeTmp w.tmpName] else []
  let envPath := e.createPath w fs
  if brokenEnv fs1 envPath then
    ⟨Except.error (SnakeError.brokenEnvironment envPath), fs1, tr1⟩
  else if !(fs1.existsPath envPath) then
    if dryrun then ⟨Except.ok envPath, fs1, tr1⟩
    else
      let tr4 := tr1 ++ [Event.makedirs envPath, Event.touchStart envPath,
                         Event.copyEnvFile (e.envFileStr w) (specArtifact envPath)]
      match w.runner.run (e.cmd1 w fs) (e.provFS w fs) with
      | RunResult.err out fs5 =>
        ⟨Except.error (SnakeError.createSpackEnvironmentException
            (provisioningFailedMsg (e.envFileStr w) out)),
         fs5.rmtree envPath, tr4 ++ [Event.invoke (e.cmd1 w fs), Event.rmtree envPath]⟩
      | RunResult.ok _ fs5 =>
        match w.runner.run (e.cmd2 w fs) fs5 with
        | RunResult.err out fs6 =>
          ⟨Except.error (SnakeError.createSpackEnvironmentException
              (provisioningFailedMsg (e.envFileStr w) out)),
           fs6.rmtree envPath,
           tr4 ++ [Event.invoke (e.cmd1 w fs), Event.invoke (e.cmd2 w fs), Event.rmtree envPath]⟩
        | RunResult.ok _ fs6 =>
          finishCreate envPath e.usesTmp w.tmpName
            (fs6.writeFile (doneSentinel envPath) [])
            (tr4 ++ [Event.invoke (e.cmd1 w fs), Event.invoke (e.cmd2 w fs),
                     Event.touchDone envPath])
  else
    finishCreate envPath e.usesTmp w.tmpName fs1 tr1

/-- `Env.create_archive`: unconditionally raises `WorkflowError` and
leaves the filesystem untouched. -/
def Env.createArchive (e : Env) (fs : FS) : Except SnakeError Unit × FS :=
  (Except.error (SnakeError.workflowError ("spack does not support environment archive.")), fs)

/-- `Env.__eq__` between two environment handles: equality of the
declared specification source. -/
def Env.eq (a b : Env) : Bool := a.file == b.file

/-! ## Tool availability check (`Spack._check`) -/

/-- The shell context `snakemake.shell` exposes: whether the platform is
Windows and the configured shell executable (`shell.get_executable()`,
`none` when unset). -/
structure ShellCfg where
  onWindows : Bool
  executable : Option String
deriving DecidableEq

/-- How `"{}".format(shell.get_executable())` renders the shell context. -/
def ShellCfg.executableStr (sh : ShellCfg) : String :=
  match sh.executable with
  | some s => s
  | none => "None"

/-- The command used to locate the spack executable. -/
def locateCmd (sh : ShellCfg) : String :=
  if !sh.onWindows || sh.executable.isSome then "type spack" else "where spack"

/-- The `CreateSpackEnvironmentException` message of `Spack._check`,
naming the missing executable and the shell context searched. -/
def spackCheckMsg (sh : ShellCfg) : String :=
  "The \x27spack\x27 command is not available in the shell " ++ sh.executableStr ++
  " that will be used by Snakemake. You have to ensure that it is in your PATH."

/-- `Spack._check`: run the locate command; on non-zero exit raise. -/
def spackCheck (sh : ShellCfg) (w : World) (fs : FS) : Except SnakeError Unit × FS :=
  match w.runner.run (locateCmd sh) fs with
  | RunResult.ok _ fs2 => (Except.ok (), fs2)
  | RunResult.err _ fs2 =>
    (Except.error (SnakeError.createSpackEnvironmentException (spackCheckMsg sh)), fs2)

/-- Modelled from the spec: the caller constructs the `Spack` tool handle
(whose constructor runs `_check`) before any environment provisioning;
that sequencing lives in callers outside the provided source, so it is
taken from the spec's orchestrator contract. -/
def provisionWithCheck (e : Env) (sh : ShellCfg) (w : World) (fs : FS) (dryrun : Bool) : Outcome :=
  match spackCheck sh w fs with
  | (Except.error err, fs2) => ⟨Except.error err, fs2, []⟩
  | (Except.ok _, fs2) => e.create w fs2 dryrun

/-! ## Observation helpers used by the claim statements -/

/-- Whether an event is an external tool invocation. -/
def isInvoke : Event → Bool
  | .invoke _ => true
  | _ => false

/-- Whether an event creates a directory or a sentinel file. -/
def makesDirOrSentinel : Event → Bool
  | .makedirs _ => true
  | .touchStart _ => true
  | .touchDone _ => true
  | _ => false

/-- `beforeB tr a b = true` iff no occurrence of `b` appears in `tr`
before the first occurrence of `a` (so every `b` is preceded by `a`). -/
def beforeB (tr : List Event) (a b : Event) : Bool :=
  match tr with
  | [] => true
  | x :: rest => if x = b then false else if x = a then true else beforeB rest a b

/-- The trace prefix contributed by temporary-file materialization. -/
def tmpTrace (e : Env) (w : World) : List Event :=
  if e.usesTmp then [Event.writeTmp w.tmpName] else []

/-- The trace of the provisioning steps before the first invocation:
directory creation, start sentinel, spec copy. -/
def baseTrace (e : Env) (w : World) (fs : FS) : List Event :=
  tmpTrace e w ++ [Event.makedirs (e.createPath w fs), Event.touchStart (e.createPath w fs),
    Event.copyEnvFile (e.envFileStr w) (specArtifact (e.createPath w fs))]

/-- The trace suffix contributed by temporary-file removal. -/
def finTrace (e : Env) (w : World) : List Event :=
  if e.usesTmp then [Event.removeTmp w.tmpName] else []

/-- The temporary file name is distinct from the candidate environment
directories and their sentinel files (it lives in the system temporary
directory, outside the target root). -/
structure World.TmpFresh (w : World) (e : Env) : Prop where
  ne_full : w.tmpName ≠ joinPath e.envDir (e.hash w)
  ne_short : w.tmpName ≠ joinPath e.envDir ((e.hash w).take 8)
  ne_start_full : w.tmpName ≠ startSentinel (joinPath e.envDir (e.hash w))
  ne_done_full : w.tmpName ≠ doneSentinel (joinPath e.envDir (e.hash w))
  ne_start_short : w.tmpName ≠ startSentinel (joinPath e.envDir ((e.hash w).take 8))
  ne_done_short : w.tmpName ≠ doneSentinel (joinPath e.envDir ((e.hash w).take 8))

/-! ## Shared concrete instances for witnesses and counterexamples -/

/-- A world whose runner reports success without filesystem effects. -/
def worldId : World := ⟨id, "/tmp/t.yaml", ⟨fun _ fs => RunResult.ok ("") fs⟩⟩

/-- A world whose runner always fails, without filesystem effects. -/
def worldErr : World := ⟨id, "/tmp/t.yaml", ⟨fun _ fs => RunResult.err ("boom") fs⟩⟩

/-- A world whose runner succeeds on the environment-creation command
but fails on the activate-and-install command (which starts with
"eval"), without filesystem effects. -/
def worldErr2 : World :=
  ⟨id, "/tmp/t.yaml", ⟨fun cmd fs =>
    if ("eval").data.isPrefixOf cmd.data then RunResult.err ("boom") fs
    else RunResult.ok ("ok") fs⟩⟩

/-- The empty filesystem. -/
def fsEmpty : FS := ⟨[], []⟩

def envC1a : Env := ⟨SourceFile.localSource ("/w/a.yaml"), [98, 88], "/a"⟩

def envC1b : Env := ⟨SourceFile.localSource ("/w/b.yaml"), [88], "/ab"⟩

def envC4 : Env := ⟨SourceFile.localSource ("/w/env.yaml"), [1, 2, 3], "/root/e"⟩

/-- A remote-source handle (materialized through a temporary file). -/
def envC6 : Env := ⟨SourceFile.remote ("https://x/env.yaml"), [1, 2], "/e"⟩

/-- A plain-local-source handle on a small root. -/
def envL : Env := ⟨SourceFile.localSource ("/w/env.yaml"), [5, 6], "/e"⟩

/-- A filesystem on which `envL`'s full-hash directory already exists. -/
def fsFullL : FS := ⟨[joinPath envL.envDir (envL.hash worldId)], []⟩

/-! ## Sanity checks of the digest embedding (RFC 1321 test vectors) -/

theorem md5hex_nil : md5hex [] = "d41d8cd98f00b204e9800998ecf8427e" := by decide

theorem md5hex_abc : md5hex (strUtf8 ("abc")) = "900150983cd24fb0d6963f7d28e17f72" := by decide

/-! ## Supporting lemmas about the digest -/

theorem length_flatMap_byteHex (l : Bytes) : (l.flatMap byteHex).length = 2 * l.length := by
  induction l with
  | nil => rfl
  | cons b t ih => simp [List.flatMap_cons, byteHex, ih]; omega

theorem md5Digest_length (msg : Bytes) : (md5Digest msg).length = 16 := by
  unfold md5Digest toLEBytes
  simp

theorem md5hex_length (msg : Bytes) : (md5hex msg).length = 32 := by
  show ((md5Digest msg).flatMap byteHex).length = 32
  rw [length_flatMap_byteHex, md5Digest_length]

theorem mem_hexDigits_of_lt (k : Nat) (h : k < 16) : hexDigitChar k ∈ hexDigits := by
  unfold hexDigits
  exact List.mem_map.mpr ⟨k, List.mem_range.mpr h, rfl⟩

theorem byteHex_mem (b : Nat) : ∀ c ∈ byteHex b, c ∈ hexDigits := by
  intro c hc
  unfold byteHex at hc
  simp only [List.mem_cons, List.not_mem_nil, or_false] at hc
  rcases hc with h | h <;> subst h <;>
    exact mem_hexDigits_of_lt _ (Nat.mod_lt _ (by norm_num))

theorem md5hex_mem (msg : Bytes) : ∀ c ∈ (md5hex msg).data, c ∈ hexDigits := by
  intro c hc
  have hc2 : c ∈ (md5Digest msg).flatMap byteHex := hc
  rcases List.mem_flatMap.mp hc2 with ⟨b, _, hcb⟩
  exact byteHex_mem b c hcb

/-! ## Supporting lemmas about the filesystem model -/

theorem FS.dirs_writeFile (fs : FS) (t : String) (b : Bytes) :
    (fs.writeFile t b).dirs = fs.dirs := rfl

theorem FS.dirs_removeFile (fs : FS) (t : String) : (fs.removeFile t).dirs = fs.dirs := rfl

theorem FS.files_mkdirs (fs : FS) (p : String) : (fs.mkdirs p).files = fs.files := by
  unfold FS.mkdirs
  split <;> rfl

theorem FS.mem_dirs_mkdirs (fs : FS) (p : String) : p ∈ (fs.mkdirs p).dirs := by
  unfold FS.mkdirs
  split
  · next h => exact List.elem_iff.mp h
  · exact List.mem_cons_self _ _

theorem FS.mem_dirs_mkdirs_of_mem {fs : FS} {q : String} (p : String) (h : q ∈ fs.dirs) :
    q ∈ (fs.mkdirs p).dirs := by
  unfold FS.mkdirs
  split
  · exact h
  · exact List.mem_cons_of_mem _ h

theorem FS.existsPath_of_mem_dirs {fs : FS} {p : String} (h : p ∈ fs.dirs) :
    fs.existsPath p = true := by
  unfold FS.existsPath
  rw [Bool.or_eq_true]
  exact Or.inl (List.elem_iff.mpr h)

theorem FS.existsPath_of_mem_files {fs : FS} {p : String} {b : Bytes} (h : (p, b) ∈ fs.files) :
    fs.existsPath p = true := by
  unfold FS.existsPath
  rw [Bool.or_eq_true]
  refine Or.inr (List.any_eq_true.mpr ⟨(p, b), h, ?_⟩)
  simp

theorem FS.existsPath_writeFile (fs : FS) (t : String) (b : Bytes) (p : String) :
    (fs.writeFile t b).existsPath p = ((t == p) || fs.existsPath p) := by
  unfold FS.writeFile FS.existsPath
  simp only [List.any_cons]
  cases ht : (t == p) <;> cases hd : fs.dirs.contains p <;> simp [ht, hd]

theorem any_filter_fst_ne (l : List (String × Bytes)) (t p : String) (h : p ≠ t) :
    ((l.filter (fun f => f.1 != t)).any (fun f => f.1 == p)) = l.any (fun f => f.1 == p) := by
  induction l with
  | nil => rfl
  | cons f rest ih =>
    by_cases hf : f.1 = t
    · have h1 : (f.1 != t) = false := by simp [hf]
      have h2 : (f.1 == p) = false := by simp [hf, Ne.symm h]
      simp [List.filter_cons, h1, List.any_cons, h2, ih]
    · have h1 : (f.1 != t) = true := by simp [hf]
      simp [List.filter_cons, h1, List.any_cons, ih]

theorem FS.existsPath_removeFile_ne (fs : FS) (t p : String) (h : p ≠ t) :
    (fs.removeFile t).existsPath p = fs.existsPath p := by
  unfold FS.removeFile FS.existsPath
  simp only
  rw [any_filter_fst_ne _ _ _ h]

theorem FS.mem_files_removeFile_of_ne {fs : FS} {t q : String} {b : Bytes}
    (h : q ≠ t) (hm : (q, b) ∈ fs.files) : (q, b) ∈ (fs.removeFile t).files := by
  unfold FS.removeFile
  exact List.mem_filter.mpr ⟨hm, by simp [h]⟩

theorem FS.not_mem_files_removeFile (fs : FS) (t : String) (b : Bytes) :
    (t, b) ∉ (fs.removeFile t).files := by
  unfold FS.removeFile
  intro hm
  have := (List.mem_filter.mp hm).2
  simp at this

theorem FS.existsPath_rmtree_self (fs : FS) (p : String) :
    (fs.rmtree p).existsPath p = false := by
  unfold FS.rmtree FS.existsPath
  rw [Bool.or_eq_false_iff]
  constructor
  · rw [← Bool.not_eq_true]
    intro hc
    have hm := List.elem_iff.mp hc
    have := (List.mem_filter.mp hm).2
    simp at this
  · rw [← Bool.not_eq_true]
    intro ha
    rcases List.any_eq_true.mp ha with ⟨f, hf, hfp⟩
    have hkeep := (List.mem_filter.mp hf).2
    simp only [Bool.not_eq_eq_eq_not, Bool.not_true, Bool.or_eq_false_iff] at hkeep
    rw [hkeep.1] at hfp
    cases hfp

theorem FS.mem_files_rmtree_of {fs : FS} {p q : String} {b : Bytes}
    (h1 : (q == p) = false) (h2 : ((p ++ "/").isPrefixOf q) = false)
    (hm : (q, b) ∈ fs.files) : (q, b) ∈ (fs.rmtree p).files := by
  unfold FS.rmtree
  exact List.mem_filter.mpr ⟨hm, by simp [h1, h2]⟩

/-! ## Supporting lemmas about path resolution and staging -/

theorem path_congr (e : Env) (w : World) (A B : FS)
    (hf : A.existsPath (joinPath e.envDir (e.hash w)) =
          B.existsPath (joinPath e.envDir (e.hash w)))
    (hs : A.existsPath (joinPath e.envDir ((e.hash w).take 8)) =
          B.existsPath (joinPath e.envDir ((e.hash w).take 8))) :
    e.path w A = e.path w B := by
  simp only [Env.path]
  rw [hf, hs]

theorem path_eq_full_or_short (e : Env) (w : World) (fs : FS) :
    e.path w fs = joinPath e.envDir (e.hash w) ∨
    e.path w fs = joinPath e.envDir ((e.hash w).take 8) := by
  simp only [Env.path]
  split
  · exact Or.inl rfl
  · exact Or.inr rfl

theorem createPath_eq_full_or_short (e : Env) (w : World) (fs : FS) :
    e.createPath w fs = joinPath e.envDir (e.hash w) ∨
    e.createPath w fs = joinPath e.envDir ((e.hash w).take 8) :=
  path_eq_full_or_short e w _

theorem path_eq_full_of_not_exists (e : Env) (w : World) (fs : FS)
    (h : fs.existsPath (e.path w fs) = false) :
    e.path w fs = joinPath e.envDir (e.hash w) := by
  by_cases hshort : fs.existsPath (joinPath e.envDir ((e.hash w).take 8)) = true
  · rcases path_eq_full_or_short e w fs with hp | hp
    · exact hp
    · rw [hp] at h
      rw [h] at hshort
      cases hshort
  · rw [Bool.not_eq_true] at hshort
    simp only [Env.path]
    simp [hshort]

theorem stagedFS_existsPath_ne (e : Env) (w : World) (fs : FS) (q : String)
    (h : w.tmpName ≠ q) : (e.stagedFS w fs).existsPath q = fs.existsPath q := by
  unfold Env.stagedFS
  split
  · rw [FS.existsPath_writeFile]
    simp [h]
  · rfl

theorem stagedFS_dirs (e : Env) (w : World) (fs : FS) : (e.stagedFS w fs).dirs = fs.dirs := by
  unfold Env.stagedFS
  split <;> rfl

theorem brokenEnv_congr (p : String) (A B : FS)
    (hs : A.existsPath (startSentinel p) = B.existsPath (startSentinel p))
    (hd : A.existsPath (doneSentinel p) = B.existsPath (doneSentinel p)) :
    brokenEnv A p = brokenEnv B p := by
  unfold brokenEnv
  rw [hs, hd]

theorem brokenEnv_of_done (fs : FS) (p : String)
    (hd : fs.existsPath (doneSentinel p) = true) : brokenEnv fs p = false := by
  unfold brokenEnv
  rw [hd]
  simp

/-! ## Claim C1 — identity hash -/

/-- Claim C1, counterexample: the claim's "for any differing content or
differing target root the resulting hashes differ" is false.  The digest
input is the bare concatenation of the canonicalized root and the
content, which is not injective: root "/a" with content [98, 88] and
root "/ab" with content [88] produce the identical digest input, hence
identical hashes, although root, canonicalized root and content all
differ. -/
theorem c1_hash_counterexample :
    envC1a.envDir ≠ envC1b.envDir ∧ envC1a.content ≠ envC1b.content ∧
    worldId.realpath envC1a.envDir ≠ worldId.realpath envC1b.envDir ∧
    envC1a.hash worldId = envC1b.hash worldId := by
  refine ⟨by decide, by decide, by decide, ?_⟩
  unfold Env.hash
  exact congrArg md5hex (by decide)

/-- Claim C1, amended: for identical content and identical canonicalized
target root the hash is the same string; the hash is the lowercase hex
digest (32 characters over the lowercase hex alphabet) computed over the
canonicalized absolute target root directory concatenated with the raw
content bytes.  (Differing content or target root need not yield
differing hashes: the concatenation is not injective and the digest
admits collisions.) -/
theorem c1_hash_deterministic_hex :
    (∀ (e1 e2 : Env) (w1 w2 : World),
        w1.realpath e1.envDir = w2.realpath e2.envDir → e1.content = e2.content →
        e1.hash w1 = e2.hash w2) ∧
    (∀ (e : Env) (w : World),
        e.hash w = md5hex (strUtf8 (w.realpath e.envDir) ++ e.content) ∧
        (e.hash w).length = 32 ∧ ∀ c ∈ (e.hash w).data, c ∈ hexDigits) := by
  constructor
  · intro e1 e2 w1 w2 h1 h2
    unfold Env.hash
    rw [h1, h2]
  · intro e w
    exact ⟨rfl, md5hex_length _, md5hex_mem _⟩

/-- Claim C1, witness: two handles with different declared sources but
identical content and root hash identically; the hash has 32 characters,
all lowercase hex. -/
theorem c1_hash_witness :
    Env.hash ⟨SourceFile.localSource ("/w/a.yaml"), [1], "/e"⟩ worldId =
      Env.hash ⟨SourceFile.localSource ("/w/b.yaml"), [1], "/e"⟩ worldId ∧
    (Env.hash ⟨SourceFile.localSource ("/w/a.yaml"), [1], "/e"⟩ worldId).length = 32 ∧
    ((Env.hash ⟨SourceFile.localSource ("/w/a.yaml"), [1], "/e"⟩ worldId).data.headD 'z')
      ∈ hexDigits :=
  ⟨c1_hash_deterministic_hex.1 _ _ _ _ rfl rfl,
   (c1_hash_deterministic_hex.2 ⟨SourceFile.localSource ("/w/a.yaml"), [1], "/e"⟩ worldId).2.1,
   (c1_hash_deterministic_hex.2 ⟨SourceFile.localSource ("/w/a.yaml"), [1], "/e"⟩ worldId).2.2
     _ (by decide)⟩

/-! ## Claim C4 — path resolution -/

/-- Claim C4: path resolution returns `targetRootDir/fullHash` whenever
the full-hash directory exists or the short-hash directory does not, and
returns `targetRootDir/shortHash` exactly when the short-hash directory
exists and the full-hash one does not; the decision is a function of the
live filesystem state passed at each call. -/
theorem c4_path_resolution (e : Env) (w : World) (fs : FS) :
    (fs.existsPath (joinPath e.envDir (e.hash w)) = true ∨
        fs.existsPath (joinPath e.envDir ((e.hash w).take 8)) = false →
      e.path w fs = joinPath e.envDir (e.hash w)) ∧
    (fs.existsPath (joinPath e.envDir ((e.hash w).take 8)) = true ∧
        fs.existsPath (joinPath e.envDir (e.hash w)) = false →
      e.path w fs = joinPath e.envDir ((e.hash w).take 8)) := by
  unfold Env.path
  constructor
  · rintro (h | h) <;> simp [h]
  · rintro ⟨h1, h2⟩
    simp [h1, h2]

/-- Claim C4, witness: on the empty filesystem neither candidate exists,
so resolution yields the full-hash path. -/
theorem c4_path_witness :
    fsEmpty.existsPath (joinPath envC4.envDir ((envC4.hash worldId).take 8)) = false ∧
    envC4.path worldId fsEmpty = joinPath envC4.envDir (envC4.hash worldId) :=
  ⟨rfl, (c4_path_resolution envC4 worldId fsEmpty).1 (Or.inr rfl)⟩

/-! ## Claim C7 — archival is unsupported -/

/-- Claim C7: `create_archive` fails with the unsupported-operation
error (`WorkflowError` in the source) for every handle and every
filesystem state, and leaves the filesystem untouched. -/
theorem c7_archive_unsupported (e : Env) (fs : FS) :
    e.createArchive fs =
      (Except.error (SnakeError.workflowError ("spack does not support environment archive.")),
       fs) := rfl

/-! ## Claim C9 — handle equality is source identity -/

/-- Claim C9: two handles compare equal iff they have the identical
declared specification source; handles with byte-identical content but
different declared sources are unequal. -/
theorem c9_eq_source_identity :
    (∀ a b : Env, a.eq b = true ↔ a.file = b.file) ∧
    (∀ a b : Env, a.content = b.content → a.file ≠ b.file → a.eq b = false) := by
  constructor
  · intro a b
    simp [Env.eq]
  · intro a b _ hf
    simp [Env.eq, hf]

/-- Claim C9, witness: equal content, different declared sources, not
equal as handles; and a handle equals a copy sharing its source. -/
theorem c9_eq_witness :
    Env.eq ⟨SourceFile.localSource ("/w/a.yaml"), [1], "/e"⟩
      ⟨SourceFile.localSource ("/w/b.yaml"), [1], "/f"⟩ = false ∧
    Env.eq ⟨SourceFile.localSource ("/w/a.yaml"), [1], "/e"⟩
      ⟨SourceFile.localSource ("/w/a.yaml"), [1], "/e"⟩ = true :=
  ⟨c9_eq_source_identity.2 _ _ rfl (by decide),
   (c9_eq_source_identity.1 _ _).mpr rfl⟩

/-! ## Claim C6 — dry-run frame -/

/-- Claim C6, counterexample: for a remote source, a dry-run `create` on
an absent environment does touch the filesystem — the specification
content is materialized into a (named temporary) file before the dry-run
check, and that file is still present when the dry-run returns. -/
theorem c6_dryrun_counterexample :
    (envC6.create worldId fsEmpty true).result = Except.ok (envC6.createPath worldId fsEmpty) ∧
    (envC6.create worldId fsEmpty true).fs ≠ fsEmpty ∧
    (envC6.create worldId fsEmpty true).fs.files = [("/tmp/t.yaml", [1, 2])] := by
  refine ⟨rfl, by decide, by decide⟩

/-- Claim C6, amended: a dry-run `create` on an absent, non-broken
environment returns the would-be path and creates no directory, no
sentinel file, and invokes no external tool; for a plain local (non-git)
source it touches nothing at all, while for any other source kind the
only filesystem change is the temporary specification file written
outside the target directory (and left behind). -/
theorem c6_dryrun_frame (e : Env) (w : World) (fs : FS)
    (hb : brokenEnv (e.stagedFS w fs) (e.createPath w fs) = false)
    (hex : (e.stagedFS w fs).existsPath (e.createPath w fs) = false) :
    (e.create w fs true).result = Except.ok (e.createPath w fs) ∧
    ((e.create w fs true).trace.all (fun ev => !(makesDirOrSentinel ev || isInvoke ev))) = true ∧
    (e.usesTmp = false → (e.create w fs true).fs = fs ∧ (e.create w fs true).trace = []) ∧
    (e.usesTmp = true → (e.create w fs true).fs = fs.writeFile w.tmpName e.content) := by
  have hcreate : e.create w fs true =
      ⟨Except.ok (e.createPath w fs), e.stagedFS w fs,
       if e.usesTmp then [Event.writeTmp w.tmpName] else []⟩ := by
    simp [Env.create, hb, hex]
  rw [hcreate]
  cases hu : e.usesTmp <;>
    simp [Env.stagedFS, hu, makesDirOrSentinel, isInvoke]

/-- Claim C6, witness for the amended claim: concrete dry-run instances
for a local source (untouched filesystem) and a remote source (only the
temporary file written). -/
theorem c6_dryrun_witness :
    (envL.create worldId fsEmpty true).result = Except.ok (envL.createPath worldId fsEmpty) ∧
    (envL.create worldId fsEmpty true).fs = fsEmpty ∧
    (envC6.create worldId fsEmpty true).fs = fsEmpty.writeFile worldId.tmpName envC6.content :=
  ⟨(c6_dryrun_frame envL worldId fsEmpty (by decide) (by decide)).1,
   ((c6_dryrun_frame envL worldId fsEmpty (by decide) (by decide)).2.2.1 rfl).1,
   (c6_dryrun_frame envC6 worldId fsEmpty (by decide) (by decide)).2.2.2 rfl⟩

/-! ## Claim C8 — tool availability check -/

/-- Claim C8: when the locate command for the spack executable fails in
the shell in use, the orchestrator fails with the tool-not-found error
(`CreateSpackEnvironmentException` naming the missing executable and the
searched shell context) before any provisioning step: the filesystem is
unchanged and the trace is empty. -/
theorem c8_tool_check (e : Env) (sh : ShellCfg) (w : World) (fs : FS) (d : Bool) (o : String)
    (h : w.runner.run (locateCmd sh) fs = RunResult.err o fs) :
    provisionWithCheck e sh w fs d =
      ⟨Except.error (SnakeError.createSpackEnvironmentException (spackCheckMsg sh)), fs, []⟩ := by
  unfold provisionWithCheck spackCheck
  rw [h]

/-- Claim C8, witness: with a failing locator, provisioning on the empty
filesystem fails fast with the tool-not-found message and no effects. -/
theorem c8_tool_check_witness :
    provisionWithCheck envL ⟨false, some ("/bin/bash")⟩ worldErr fsEmpty false =
      ⟨Except.error (SnakeError.createSpackEnvironmentException
         (spackCheckMsg ⟨false, some ("/bin/bash")⟩)), fsEmpty, []⟩ :=
  c8_tool_check envL ⟨false, some ("/bin/bash")⟩ worldErr fsEmpty false ("boom") rfl

/-! ## Claim C3 — rollback on provisioning failure -/

/-- Claim C3: if either external invocation (environment creation or
install) fails during provisioning, `create` raises the provisioning
error carrying the failed command's captured combined output, the final
filesystem is the failing invocation's filesystem with the entire target
directory removed recursively, and the target directory does not exist
when the error propagates.  (In this model the best-effort deletion
cannot itself fail, matching the error-swallowing `rmtree` call.) -/
theorem c3_rollback (e : Env) (w : World) (fs : FS) (o : String)
    (hb : brokenEnv (e.stagedFS w fs) (e.createPath w fs) = false)
    (hex : (e.stagedFS w fs).existsPath (e.createPath w fs) = false) :
    (∀ fsE, w.runner.run (e.cmd1 w fs) (e.provFS w fs) = RunResult.err o fsE →
      (e.create w fs false).result = Except.error (SnakeError.createSpackEnvironmentException
          (provisioningFailedMsg (e.envFileStr w) o)) ∧
      (e.create w fs false).fs = fsE.rmtree (e.createPath w fs) ∧
      ((e.create w fs false).fs).existsPath (e.createPath w fs) = false) ∧
    (∀ o1 fs5 fsE, w.runner.run (e.cmd1 w fs) (e.provFS w fs) = RunResult.ok o1 fs5 →
      w.runner.run (e.cmd2 w fs) fs5 = RunResult.err o fsE →
      (e.create w fs false).result = Except.error (SnakeError.createSpackEnvironmentException
          (provisioningFailedMsg (e.envFileStr w) o)) ∧
      (e.create w fs false).fs = fsE.rmtree (e.createPath w fs) ∧
      ((e.create w fs false).fs).existsPath (e.createPath w fs) = false) := by
  constructor
  · intro fsE hr1
    have hcreate : (e.create w fs false).result = Except.error
          (SnakeError.createSpackEnvironmentException
            (provisioningFailedMsg (e.envFileStr w) o)) ∧
        (e.create w fs false).fs = fsE.rmtree (e.createPath w fs) := by
      constructor <;> simp [Env.create, hb, hex, hr1]
    refine ⟨hcreate.1, hcreate.2, ?_⟩
    rw [hcreate.2]
    exact FS.existsPath_rmtree_self _ _
  · intro o1 fs5 fsE hr1 hr2
    have hcreate : (e.create w fs false).result = Except.error
          (SnakeError.createSpackEnvironmentException
            (provisioningFailedMsg (e.envFileStr w) o)) ∧
        (e.create w fs false).fs = fsE.rmtree (e.createPath w fs) := by
      constructor <;> simp [Env.create, hb, hex, hr1, hr2]
    refine ⟨hcreate.1, hcreate.2, ?_⟩
    rw [hcreate.2]
    exact FS.existsPath_rmtree_self _ _

/-- Claim C3, witness: with an always-failing runner on the empty
filesystem, provisioning a local-source environment raises the
provisioning error carrying the captured output and the target directory
is absent afterwards. -/
theorem c3_rollback_witness :
    (envL.create worldErr fsEmpty false).result =
      Except.error (SnakeError.createSpackEnvironmentException
        (provisioningFailedMsg (envL.envFileStr worldErr) ("boom"))) ∧
    ((envL.create worldErr fsEmpty false).fs).existsPath
      (envL.createPath worldErr fsEmpty) = false :=
  ⟨((c3_rollback envL worldErr fsEmpty ("boom") (by decide) (by decide)).1
      (envL.provFS worldErr fsEmpty) rfl).1,
   ((c3_rollback envL worldErr fsEmpty ("boom") (by decide) (by decide)).1
      (envL.provFS worldErr fsEmpty) rfl).2.2⟩

/-! ## Trace characterization of `Env.create` (for the temporal claim) -/

theorem create_shapes (e : Env) (w : World) (fs : FS) :
    ((e.create w fs false).trace = tmpTrace e w ∧
      (e.create w fs false).result =
        Except.error (SnakeError.brokenEnvironment (e.createPath w fs))) ∨
    ((e.create w fs false).trace = tmpTrace e w ++ finTrace e w ∧
      (e.create w fs false).result = Except.ok (e.createPath w fs)) ∨
    ((e.create w fs false).trace = baseTrace e w fs ++
        [Event.invoke (e.cmd1 w fs), Event.rmtree (e.createPath w fs)] ∧
      ∃ m, (e.create w fs false).result =
        Except.error (SnakeError.createSpackEnvironmentException m)) ∨
    ((e.create w fs false).trace = baseTrace e w fs ++
        [Event.invoke (e.cmd1 w fs), Event.invoke (e.cmd2 w fs),
         Event.rmtree (e.createPath w fs)] ∧
      ∃ m, (e.create w fs false).result =
        Except.error (SnakeError.createSpackEnvironmentException m)) ∨
    ((e.create w fs false).trace = baseTrace e w fs ++
        [Event.invoke (e.cmd1 w fs), Event.invoke (e.cmd2 w fs),
         Event.touchDone (e.createPath w fs)] ++ finTrace e w ∧
      (e.create w fs false).result = Except.ok (e.createPath w fs)) := by
  by_cases hb : brokenEnv (e.stagedFS w fs) (e.createPath w fs) = true
  · left
    constructor <;> simp [Env.create, hb, tmpTrace]
  · rw [Bool.not_eq_true] at hb
    by_cases hex : (e.stagedFS w fs).existsPath (e.createPath w fs) = true
    · right; left
      cases hu : e.usesTmp <;>
        constructor <;>
          simp [Env.create, hb, hex, finishCreate, hu, tmpTrace, finTrace]
    · rw [Bool.not_eq_true] at hex
      cases hr1 : w.runner.run (e.cmd1 w fs) (e.provFS w fs) with
      | err o5 fs5 =>
        right; right; left
        refine ⟨?_, ⟨provisioningFailedMsg (e.envFileStr w) o5, ?_⟩⟩ <;>
          simp [Env.create, hb, hex, hr1, baseTrace, tmpTrace]
      | ok o5 fs5 =>
        cases hr2 : w.runner.run (e.cmd2 w fs) fs5 with
        | err o6 fs6 =>
          right; right; right; left
          refine ⟨?_, ⟨provisioningFailedMsg (e.envFileStr w) o6, ?_⟩⟩ <;>
            simp [Env.create, hb, hex, hr1, hr2, baseTrace, tmpTrace]
        | ok o6 fs6 =>
          right; right; right; right
          cases hu : e.usesTmp <;>
            constructor <;>
              simp [Env.create, hb, hex, hr1, hr2, finishCreate, hu,
                baseTrace, tmpTrace, finTrace]

/-! ## Claim C5 — sentinel ordering -/

/-- Claim C5: in every (non-dry-run) execution, no external invocation
event occurs before the start sentinel is written; the done sentinel is
written only after both invocations (environment creation, then
install); and if the done sentinel was written, the run succeeded and
both invocations occurred. -/
theorem c5_sentinel_order (e : Env) (w : World) (fs : FS) :
    (∀ cmd, beforeB (e.create w fs false).trace
        (Event.touchStart (e.createPath w fs)) (Event.invoke cmd) = true) ∧
    (beforeB (e.create w fs false).trace
        (Event.invoke (e.cmd1 w fs)) (Event.touchDone (e.createPath w fs)) = true ∧
     beforeB (e.create w fs false).trace
        (Event.invoke (e.cmd2 w fs)) (Event.touchDone (e.createPath w fs)) = true) ∧
    (Event.touchDone (e.createPath w fs) ∈ (e.create w fs false).trace →
      (e.create w fs false).result = Except.ok (e.createPath w fs) ∧
      Event.invoke (e.cmd1 w fs) ∈ (e.create w fs false).trace ∧
      Event.invoke (e.cmd2 w fs) ∈ (e.create w fs false).trace) := by
  rcases create_shapes e w fs with ⟨ht, _⟩ | ⟨ht, _⟩ | ⟨ht, _⟩ | ⟨ht, _⟩ | ⟨ht, hr⟩
  · cases hu : e.usesTmp <;> rw [ht] <;>
      exact ⟨fun cmd => by simp [tmpTrace, hu, beforeB],
             ⟨by simp [tmpTrace, hu, beforeB], by simp [tmpTrace, hu, beforeB]⟩,
             fun hmem => by simp [tmpTrace, hu] at hmem⟩
  · cases hu : e.usesTmp <;> rw [ht] <;>
      exact ⟨fun cmd => by simp [tmpTrace, finTrace, hu, beforeB],
             ⟨by simp [tmpTrace, finTrace, hu, beforeB],
              by simp [tmpTrace, finTrace, hu, beforeB]⟩,
             fun hmem => by simp [tmpTrace, finTrace, hu] at hmem⟩
  · cases hu : e.usesTmp <;> rw [ht] <;>
      refine ⟨fun cmd => by simp [baseTrace, tmpTrace, hu, beforeB],
              ⟨by simp [baseTrace, tmpTrace, hu, beforeB], ?_⟩,
              fun hmem => by simp [baseTrace, tmpTrace, hu] at hmem⟩ <;>
      by_cases hcc : e.cmd1 w fs = e.cmd2 w fs <;>
        simp [baseTrace, tmpTrace, hu, beforeB, hcc]
  · cases hu : e.usesTmp <;> rw [ht] <;>
      refine ⟨fun cmd => by simp [baseTrace, tmpTrace, hu, beforeB],
              ⟨by simp [baseTrace, tmpTrace, hu, beforeB], ?_⟩,
              fun hmem => by simp [baseTrace, tmpTrace, hu] at hmem⟩ <;>
      by_cases hcc : e.cmd1 w fs = e.cmd2 w fs <;>
        simp [baseTrace, tmpTrace, hu, beforeB, hcc]
  · cases hu : e.usesTmp <;> rw [ht] <;>
      refine ⟨fun cmd => by simp [baseTrace, tmpTrace, finTrace, hu, beforeB],
              ⟨by simp [baseTrace, tmpTrace, finTrace, hu, beforeB], ?_⟩,
              fun hmem => ⟨hr, by simp [baseTrace, tmpTrace, finTrace, hu],
                           by simp [baseTrace, tmpTrace, finTrace, hu]⟩⟩ <;>
      by_cases hcc : e.cmd1 w fs = e.cmd2 w fs <;>
        simp [baseTrace, tmpTrace, finTrace, hu, beforeB, hcc]

/-- Claim C5, witness: a concrete successful provisioning run in which
the done sentinel was written; the run returned the path and both
invocations occurred. -/
theorem c5_sentinel_witness :
    Event.touchDone (envL.createPath worldId fsEmpty) ∈
      (envL.create worldId fsEmpty false).trace ∧
    (envL.create worldId fsEmpty false).result = Except.ok (envL.createPath worldId fsEmpty) ∧
    Event.invoke (envL.cmd1 worldId fsEmpty) ∈ (envL.create worldId fsEmpty false).trace := by
  have hmem : Event.touchDone (envL.createPath worldId fsEmpty) ∈
      (envL.create worldId fsEmpty false).trace := by decide
  exact ⟨hmem, ((c5_sentinel_order envL worldId fsEmpty).2.2 hmem).1,
         ((c5_sentinel_order envL worldId fsEmpty).2.2 hmem).2.1⟩

/-! ## Helpers for the idempotence claim -/

theorem World.TmpFresh.ne_path {w : World} {e : Env} (hf : w.TmpFresh e) (fs : FS) :
    w.tmpName ≠ e.createPath w fs := by
  rcases createPath_eq_full_or_short e w fs with h | h <;> rw [h]
  · exact hf.ne_full
  · exact hf.ne_short

theorem World.TmpFresh.ne_start {w : World} {e : Env} (hf : w.TmpFresh e) (fs : FS) :
    w.tmpName ≠ startSentinel (e.createPath w fs) := by
  rcases createPath_eq_full_or_short e w fs with h | h <;> rw [h]
  · exact hf.ne_start_full
  · exact hf.ne_start_short

theorem World.TmpFresh.ne_done {w : World} {e : Env} (hf : w.TmpFresh e) (fs : FS) :
    w.tmpName ≠ doneSentinel (e.createPath w fs) := by
  rcases createPath_eq_full_or_short e w fs with h | h <;> rw [h]
  · exact hf.ne_done_full
  · exact hf.ne_done_short

theorem stagedFS_removeFile_existsPath (e : Env) (w : World) (A : FS) (q : String)
    (hq : w.tmpName ≠ q) :
    (e.stagedFS w (A.removeFile w.tmpName)).existsPath q = A.existsPath q := by
  rw [stagedFS_existsPath_ne e w _ q hq]
  exact FS.existsPath_removeFile_ne A w.tmpName q (Ne.symm hq)

theorem path_eq_full_of_exists_full (e : Env) (w : World) (A : FS)
    (h : A.existsPath (joinPath e.envDir (e.hash w)) = true) :
    e.path w A = joinPath e.envDir (e.hash w) := by
  simp only [Env.path]
  simp [h]

/-- After a run of `Env.create` (no dry run) that returned `Except.ok p`
— through the early path-exists return or through a full provisioning
sequence — the returned path resolves to itself again, exists, and is
not broken, provided the runner never deletes entries and the temporary
file name is fresh. -/
theorem create_ok_post (e : Env) (w : World) (fs : FS) (p : String)
    (hpres : w.runner.Preserving) (hfresh : w.TmpFresh e)
    (hok : (e.create w fs false).result = Except.ok p) :
    e.createPath w ((e.create w fs false).fs) = p ∧
    (e.stagedFS w ((e.create w fs false).fs)).existsPath p = true ∧
    brokenEnv (e.stagedFS w ((e.create w fs false).fs)) p = false := by
  by_cases hb : brokenEnv (e.stagedFS w fs) (e.createPath w fs) = true
  · exfalso
    simp [Env.create, hb] at hok
  rw [Bool.not_eq_true] at hb
  by_cases hex : (e.stagedFS w fs).existsPath (e.createPath w fs) = true
  · -- the environment already existed: early return
    cases hu : e.usesTmp
    · have hfs0 : (e.create w fs false).fs = e.stagedFS w fs := by
        simp [Env.create, hb, hex, finishCreate, hu]
      have hfs : (e.create w fs false).fs = fs := by
        rw [hfs0]
        simp [Env.stagedFS, hu]
      have hres : (e.create w fs false).result = Except.ok (e.createPath w fs) := by
        simp [Env.create, hb, hex, finishCreate, hu]
      rw [hres, Except.ok.injEq] at hok
      subst hok
      rw [hfs]
      exact ⟨rfl, hex, hb⟩
    · have hfs : (e.create w fs false).fs = (e.stagedFS w fs).removeFile w.tmpName := by
        simp [Env.create, hb, hex, finishCreate, hu]
      have hres : (e.create w fs false).result = Except.ok (e.createPath w fs) := by
        simp [Env.create, hb, hex, finishCreate, hu]
      rw [hres, Except.ok.injEq] at hok
      subst hok
      rw [hfs]
      refine ⟨?_, ?_, ?_⟩
      · show e.path w (e.stagedFS w ((e.stagedFS w fs).removeFile w.tmpName)) =
            e.createPath w fs
        rw [path_congr e w _ (e.stagedFS w fs)
            (stagedFS_removeFile_existsPath e w _ _ hfresh.ne_full)
            (stagedFS_removeFile_existsPath e w _ _ hfresh.ne_short)]
        rfl
      · rw [stagedFS_removeFile_existsPath e w _ _ (hfresh.ne_path fs)]
        exact hex
      · rw [brokenEnv_congr _ _ (e.stagedFS w fs)
            (stagedFS_removeFile_existsPath e w _ _ (hfresh.ne_start fs))
            (stagedFS_removeFile_existsPath e w _ _ (hfresh.ne_done fs))]
        exact hb
  · -- full provisioning sequence
    rw [Bool.not_eq_true] at hex
    have hPfull : e.createPath w fs = joinPath e.envDir (e.hash w) :=
      path_eq_full_of_not_exists e w (e.stagedFS w fs) hex
    cases hr1 : w.runner.run (e.cmd1 w fs) (e.provFS w fs) with
    | err o5 fs5 =>
      exfalso
      simp [Env.create, hb, hex, hr1] at hok
    | ok o5 fs5 =>
      cases hr2 : w.runner.run (e.cmd2 w fs) fs5 with
      | err o6 fs6 =>
        exfalso
        simp [Env.create, hb, hex, hr1, hr2] at hok
      | ok o6 fs6 =>
        -- the created directory survives both invocations
        have h0 : (e.createPath w fs) ∈ (e.provFS w fs).dirs := by
          unfold Env.provFS
          rw [FS.dirs_writeFile, FS.dirs_writeFile]
          exact FS.mem_dirs_mkdirs _ _
        have h5 : (e.createPath w fs) ∈ fs5.dirs := by
          have h := (hpres (e.cmd1 w fs) (e.provFS w fs)).1 _ h0
          rw [hr1] at h
          exact h
        have h6 : (e.createPath w fs) ∈ fs6.dirs := by
          have h := (hpres (e.cmd2 w fs) fs5).1 _ h5
          rw [hr2] at h
          exact h
        have hdone : (doneSentinel (e.createPath w fs), ([] : Bytes)) ∈
            (fs6.writeFile (doneSentinel (e.createPath w fs)) []).files :=
          List.mem_cons_self _ _
        cases hu : e.usesTmp
        · have hfs : (e.create w fs false).fs =
              fs6.writeFile (doneSentinel (e.createPath w fs)) [] := by
            simp [Env.create, hb, hex, hr1, hr2, finishCreate, hu]
          have hres : (e.create w fs false).result = Except.ok (e.createPath w fs) := by
            simp [Env.create, hb, hex, hr1, hr2, finishCreate, hu]
          rw [hres, Except.ok.injEq] at hok
          subst hok
          rw [hfs]
          have hstaged : ∀ A : FS, e.stagedFS w A = A := by
            intro A
            simp [Env.stagedFS, hu]
          rw [hstaged]
          have hexP : (fs6.writeFile (doneSentinel (e.createPath w fs)) []).existsPath
              (e.createPath w fs) = true := by
            apply FS.existsPath_of_mem_dirs
            rw [FS.dirs_writeFile]
            exact h6
          have hexfull : (fs6.writeFile (doneSentinel (e.createPath w fs)) []).existsPath
              (joinPath e.envDir (e.hash w)) = true := by
            rw [← hPfull]
            exact hexP
          refine ⟨?_, hexP, ?_⟩
          · show e.path w _ = e.createPath w fs
            rw [hstaged, path_eq_full_of_exists_full e w _ hexfull, ← hPfull]
          · exact brokenEnv_of_done _ _ (FS.existsPath_of_mem_files hdone)
        · have hfs : (e.create w fs false).fs =
              (fs6.writeFile (doneSentinel (e.createPath w fs)) []).removeFile w.tmpName := by
            simp [Env.create, hb, hex, hr1, hr2, finishCreate, hu]
          have hres : (e.create w fs false).result = Except.ok (e.createPath w fs) := by
            simp [Env.create, hb, hex, hr1, hr2, finishCreate, hu]
          rw [hres, Except.ok.injEq] at hok
          subst hok
          rw [hfs]
          have hdirs2 : (e.createPath w fs) ∈
              (e.stagedFS w ((fs6.writeFile (doneSentinel (e.createPath w fs))
                []).removeFile w.tmpName)).dirs := by
            rw [stagedFS_dirs, FS.dirs_removeFile, FS.dirs_writeFile]
            exact h6
          have hexP : (e.stagedFS w ((fs6.writeFile (doneSentinel (e.createPath w fs))
              []).removeFile w.tmpName)).existsPath (e.createPath w fs) = true :=
            FS.existsPath_of_mem_dirs hdirs2
          have hexfull : (e.stagedFS w ((fs6.writeFile (doneSentinel (e.createPath w fs))
              []).removeFile w.tmpName)).existsPath (joinPath e.envDir (e.hash w)) = true := by
            rw [← hPfull]
            exact hexP
          have hdone2 : (e.stagedFS w ((fs6.writeFile (doneSentinel (e.createPath w fs))
              []).removeFile w.tmpName)).existsPath
              (doneSentinel (e.createPath w fs)) = true := by
            rw [stagedFS_removeFile_existsPath e w _ _ (hfresh.ne_done fs)]
            exact FS.existsPath_of_mem_files hdone
          refine ⟨?_, hexP, ?_⟩
          · show e.path w _ = e.createPath w fs
            rw [path_eq_full_of_exists_full e w _ hexfull, ← hPfull]
          · exact brokenEnv_of_done _ _ hdone2

theorem trace_all_no_invoke_of (tr : List Event)
    (h : (tr.all (fun ev => !(isInvoke ev || makesDirOrSentinel ev))) = true) :
    (tr.all (fun ev => !(isInvoke ev))) = true := by
  rw [List.all_eq_true] at h ⊢
  intro x hx
  have hh := h x hx
  cases hi : isInvoke x <;> simp [hi] at hh ⊢

/-! ## Claim C2 — idempotence -/

/-- Claim C2: when the resolved environment path already exists and is
not broken, `create` (no dry run) returns that path immediately — no
external tool invocation, no directory or sentinel creation.  Hence
calling `create` twice in sequence (runner never deleting entries,
temporary name fresh) makes the second call return the same path with no
tool invocation at all, so the provisioning sequence runs at most once
across the two calls. -/
theorem c2_create_idempotent :
    (∀ (e : Env) (w : World) (fs : FS),
      brokenEnv (e.stagedFS w fs) (e.createPath w fs) = false →
      (e.stagedFS w fs).existsPath (e.createPath w fs) = true →
      (e.create w fs false).result = Except.ok (e.createPath w fs) ∧
      ((e.create w fs false).trace.all
          (fun ev => !(isInvoke ev || makesDirOrSentinel ev))) = true) ∧
    (∀ (e : Env) (w : World) (fs : FS) (p : String),
      w.runner.Preserving → w.TmpFresh e →
      (e.create w fs false).result = Except.ok p →
      (e.create w ((e.create w fs false).fs) false).result = Except.ok p ∧
      ((e.create w ((e.create w fs false).fs) false).trace.all
          (fun ev => !(isInvoke ev))) = true) := by
  have part1 : ∀ (e : Env) (w : World) (fs : FS),
      brokenEnv (e.stagedFS w fs) (e.createPath w fs) = false →
      (e.stagedFS w fs).existsPath (e.createPath w fs) = true →
      (e.create w fs false).result = Except.ok (e.createPath w fs) ∧
      ((e.create w fs false).trace.all
          (fun ev => !(isInvoke ev || makesDirOrSentinel ev))) = true := by
    intro e w fs hb hex
    constructor
    · cases hu : e.usesTmp <;> simp [Env.create, hb, hex, finishCreate, hu]
    · cases hu : e.usesTmp <;>
        simp [Env.create, hb, hex, finishCreate, hu, isInvoke, makesDirOrSentinel]
  refine ⟨part1, ?_⟩
  intro e w fs p hpres hfresh hok
  obtain ⟨hP, hex2, hb2⟩ := create_ok_post e w fs p hpres hfresh hok
  rw [← hP] at hex2 hb2
  obtain ⟨hres2, htr2⟩ := part1 e w _ hb2 hex2
  rw [hP] at hres2
  exact ⟨hres2, trace_all_no_invoke_of _ htr2⟩

/-- Claim C2, witness: on a filesystem where the full-hash directory
already exists, `create` returns it immediately; and a clean
provisioning run followed by a second `create` returns the same path
with no invocation in the second run. -/
theorem c2_create_witness :
    (envL.create worldId fsFullL false).result = Except.ok (envL.createPath worldId fsFullL) ∧
    (envL.create worldId ((envL.create worldId fsEmpty false).fs) false).result =
      Except.ok (envL.createPath worldId fsEmpty) ∧
    ((envL.create worldId ((envL.create worldId fsEmpty false).fs) false).trace.all
        (fun ev => !(isInvoke ev))) = true := by
  refine ⟨(c2_create_idempotent.1 envL worldId fsFullL (by decide) (by decide)).1, ?_, ?_⟩
  · exact (c2_create_idempotent.2 envL worldId fsEmpty (envL.createPath worldId fsEmpty)
      (fun cmd fs => ⟨fun d h => h, fun f h => h⟩)
      ⟨by decide, by decide, by decide, by decide, by decide, by decide⟩ rfl).1
  · exact (c2_create_idempotent.2 envL worldId fsEmpty (envL.createPath worldId fsEmpty)
      (fun cmd fs => ⟨fun d h => h, fun f h => h⟩)
      ⟨by decide, by decide, by decide, by decide, by decide, by decide⟩ rfl).2

/-! ## Claim C10 — temporary file lifecycle -/

/-- Claim C10: for sources materialized through a temporary file, the
content is written to the temporary file before anything else; the file
is removed only on the normal final return path, so it remains on disk
after a dry-run early return and after a failed provisioning run —
whether the environment-creation invocation or the install invocation
failed — whose target directory is gone, while any normal return leaves
no temporary file behind. -/
theorem c10_tmpfile (e : Env) (w : World) (fs : FS) (hu : e.usesTmp = true) :
    (brokenEnv (e.stagedFS w fs) (e.createPath w fs) = false →
      (e.stagedFS w fs).existsPath (e.createPath w fs) = false →
      (e.create w fs true).result = Except.ok (e.createPath w fs) ∧
      (w.tmpName, e.content) ∈ (e.create w fs true).fs.files) ∧
    (∀ o fsE, w.runner.Preserving →
      (w.tmpName == e.createPath w fs) = false →
      (((e.createPath w fs) ++ "/").isPrefixOf w.tmpName) = false →
      brokenEnv (e.stagedFS w fs) (e.createPath w fs) = false →
      (e.stagedFS w fs).existsPath (e.createPath w fs) = false →
      w.runner.run (e.cmd1 w fs) (e.provFS w fs) = RunResult.err o fsE →
      (w.tmpName, e.content) ∈ (e.create w fs false).fs.files ∧
      ((e.create w fs false).fs).existsPath (e.createPath w fs) = false) ∧
    (∀ o o1 fs5 fsE, w.runner.Preserving →
      (w.tmpName == e.createPath w fs) = false →
      (((e.createPath w fs) ++ "/").isPrefixOf w.tmpName) = false →
      brokenEnv (e.stagedFS w fs) (e.createPath w fs) = false →
      (e.stagedFS w fs).existsPath (e.createPath w fs) = false →
      w.runner.run (e.cmd1 w fs) (e.provFS w fs) = RunResult.ok o1 fs5 →
      w.runner.run (e.cmd2 w fs) fs5 = RunResult.err o fsE →
      (w.tmpName, e.content) ∈ (e.create w fs false).fs.files ∧
      ((e.create w fs false).fs).existsPath (e.createPath w fs) = false) ∧
    (∀ p, (e.create w fs false).result = Except.ok p →
      ∀ b, (w.tmpName, b) ∉ (e.create w fs false).fs.files) := by
  have hstaged : e.stagedFS w fs = fs.writeFile w.tmpName e.content := by
    simp [Env.stagedFS, hu]
  have hmem0 : (w.tmpName, e.content) ∈ (e.provFS w fs).files := by
    unfold Env.provFS
    unfold FS.writeFile
    refine List.mem_cons_of_mem _ (List.mem_cons_of_mem _ ?_)
    rw [FS.files_mkdirs, hstaged]
    exact List.mem_cons_self _ _
  refine ⟨?_, ?_, ?_, ?_⟩
  · intro hb hex
    have hfs : (e.create w fs true).fs = e.stagedFS w fs := by
      simp [Env.create, hb, hex]
    have hres : (e.create w fs true).result = Except.ok (e.createPath w fs) := by
      simp [Env.create, hb, hex]
    refine ⟨hres, ?_⟩
    rw [hfs, hstaged]
    exact List.mem_cons_self _ _
  · intro o fsE hpres hne hpre hb hex hr1
    have hfs : (e.create w fs false).fs = fsE.rmtree (e.createPath w fs) := by
      simp [Env.create, hb, hex, hr1]
    have hmemE : (w.tmpName, e.content) ∈ fsE.files := by
      have h := (hpres (e.cmd1 w fs) (e.provFS w fs)).2 _ hmem0
      rw [hr1] at h
      exact h
    refine ⟨?_, ?_⟩
    · rw [hfs]
      exact FS.mem_files_rmtree_of hne hpre hmemE
    · rw [hfs]
      exact FS.existsPath_rmtree_self _ _
  · intro o o1 fs5 fsE hpres hne hpre hb hex hr1 hr2
    have hfs : (e.create w fs false).fs = fsE.rmtree (e.createPath w fs) := by
      simp [Env.create, hb, hex, hr1, hr2]
    have hmem5 : (w.tmpName, e.content) ∈ fs5.files := by
      have h := (hpres (e.cmd1 w fs) (e.provFS w fs)).2 _ hmem0
      rw [hr1] at h
      exact h
    have hmemE : (w.tmpName, e.content) ∈ fsE.files := by
      have h := (hpres (e.cmd2 w fs) fs5).2 _ hmem5
      rw [hr2] at h
      exact h
    refine ⟨?_, ?_⟩
    · rw [hfs]
      exact FS.mem_files_rmtree_of hne hpre hmemE
    · rw [hfs]
      exact FS.existsPath_rmtree_self _ _
  · intro p hok b
    by_cases hb : brokenEnv (e.stagedFS w fs) (e.createPath w fs) = true
    · exfalso
      simp [Env.create, hb] at hok
    rw [Bool.not_eq_true] at hb
    by_cases hex : (e.stagedFS w fs).existsPath (e.createPath w fs) = true
    · have hfs : (e.create w fs false).fs = (e.stagedFS w fs).removeFile w.tmpName := by
        simp [Env.create, hb, hex, finishCreate, hu]
      rw [hfs]
      exact FS.not_mem_files_removeFile _ _ _
    · rw [Bool.not_eq_true] at hex
      cases hr1 : w.runner.run (e.cmd1 w fs) (e.provFS w fs) with
      | err o5 fs5 =>
        exfalso
        simp [Env.create, hb, hex, hr1] at hok
      | ok o5 fs5 =>
        cases hr2 : w.runner.run (e.cmd2 w fs) fs5 with
        | err o6 fs6 =>
          exfalso
          simp [Env.create, hb, hex, hr1, hr2] at hok
        | ok o6 fs6 =>
          have hfs : (e.create w fs false).fs =
              (fs6.writeFile (doneSentinel (e.createPath w fs)) []).removeFile w.tmpName := by
            simp [Env.create, hb, hex, hr1, hr2, finishCreate, hu]
          rw [hfs]
          exact FS.not_mem_files_removeFile _ _ _

theorem worldErr2_preserving : worldErr2.runner.Preserving := by
  intro cmd fs
  constructor
  · intro d h
    show d ∈ (RunResult.fsOf (if ("eval").data.isPrefixOf cmd.data then RunResult.err ("boom") fs
        else RunResult.ok ("ok") fs)).dirs
    split <;> exact h
  · intro f h
    show f ∈ (RunResult.fsOf (if ("eval").data.isPrefixOf cmd.data then RunResult.err ("boom") fs
        else RunResult.ok ("ok") fs)).files
    split <;> exact h

/-- Claim C10, witness: for a concrete remote-source handle, the
temporary file remains after a dry run, after a provisioning run whose
first (environment-creation) invocation failed, and after one whose
second (install) invocation failed — with the target directory gone in
both failure cases — and is absent after a normal successful run. -/
theorem c10_tmpfile_witness :
    (worldId.tmpName, envC6.content) ∈ (envC6.create worldId fsEmpty true).fs.files ∧
    ((worldErr.tmpName, envC6.content) ∈ (envC6.create worldErr fsEmpty false).fs.files ∧
      ((envC6.create worldErr fsEmpty false).fs).existsPath
        (envC6.createPath worldErr fsEmpty) = false) ∧
    ((worldErr2.tmpName, envC6.content) ∈ (envC6.create worldErr2 fsEmpty false).fs.files ∧
      ((envC6.create worldErr2 fsEmpty false).fs).existsPath
        (envC6.createPath worldErr2 fsEmpty) = false) ∧
    (worldId.tmpName, envC6.content) ∉ (envC6.create worldId fsEmpty false).fs.files := by
  refine ⟨?_, ?_, ?_, ?_⟩
  · exact ((c10_tmpfile envC6 worldId fsEmpty rfl).1 (by decide) (by decide)).2
  · exact (c10_tmpfile envC6 worldErr fsEmpty rfl).2.1 ("boom")
      (envC6.provFS worldErr fsEmpty) (fun cmd fs => ⟨fun d h => h, fun f h => h⟩)
      (by decide) (by decide) (by decide) (by decide) rfl
  · exact (c10_tmpfile envC6 worldErr2 fsEmpty rfl).2.2.1 ("boom") ("ok")
      (envC6.provFS worldErr2 fsEmpty) (envC6.provFS worldErr2 fsEmpty)
      worldErr2_preserving
      (by decide) (by decide) (by decide) (by decide) (by rfl) (by rfl)
  · exact (c10_tmpfile envC6 worldId fsEmpty rfl).2.2.2
      (envC6.createPath worldId fsEmpty) rfl envC6.content

end SpackEnv
